import Mathlib

/-!
Shallow embedding of `RDPAGDALProvider.query`
(`msc_pygeoapi/provider/rdpa_gdal.py`) and verification of its
specification.

The Python method is translated into a pure function over an explicit
provider state (`self.data`, `self.file_list`, ...) together with an
explicit trace of the I/O actions it performs (resolver calls, raster
file opens, clip invocations).  External collaborators — the rasterio
library (`open`, `warp.transform_geom`, `mask.mask`) and the file
resolver of the base `RDPAProvider` class — are supplied as an
environment of abstract functions; the control flow, branch order and
error handling of the provider itself are translated line by line from
the source.
-/

namespace MscRdpa

/-- One 2-D pixel plane (one raster band), row-major. -/
abbrev Plane := List (List Int)

/-- Shape of a plane as (rows, cols); mirrors numpy `arr.shape` for a
rectangular array. -/
def planeShape (p : Plane) : Nat × Nat := (p.length, (p.headD []).length)

/-- One polygon ring: a list of (x, y) vertices in native coordinates. -/
abbrev Ring := List (Int × Int)

/-- Boolean list-prefix test (used to embed Python's `in` on strings). -/
def prefB : List Char → List Char → Bool
  | [], _ => true
  | _ :: _, [] => false
  | a :: as, b :: bs => a == b && prefB as bs

/-- Boolean contiguous-sublist test. -/
def subListB (needle : List Char) : List Char → Bool
  | [] => prefB needle []
  | b :: bs => prefB needle (b :: bs) || subListB needle bs

/-- Python's `needle in hay` on strings (substring containment). -/
def pyIn (needle hay : String) : Bool := subListB needle.toList hay.toList

/-- Python's `'/' in s`. -/
def hasSlash (s : String) : Bool := s.toList.any (fun c => c == '/')

/-- Python's `path.split('/')[-1].replace('*', '')` (line 256 of the
source). -/
def fileNameOf (path : String) : String :=
  String.mk (((path.splitOn "/").getLastD "").toList.filter (fun c => !(c == '*')))

/-- An opened rasterio dataset: the metadata fields the provider reads
(`_data.meta`, `_data.bounds`, `_data.units`) plus the pixel planes that
`_data.read` yields. -/
structure Dataset where
  driver : String
  dtype : String
  nodata : Option Int
  width : Nat
  height : Nat
  count : Nat
  crs : String
  transform : List Int
  boundsLeft : Int
  boundsBottom : Int
  boundsRight : Int
  boundsTop : Int
  units : List String
  planes : List Plane
deriving DecidableEq, Repr

/-- The `out_meta` dict: rasterio's `meta` keys plus the keys the
provider adds (`options` entries, `bbox`, `units`, `bands`). -/
structure Meta where
  driver : String
  dtype : String
  nodata : Option Int
  width : Nat
  height : Nat
  count : Nat
  crs : String
  transform : List Int
  extra : List (String × String)
  bbox : List Int
  units : List String
  bands : List Nat
deriving DecidableEq, Repr

/-- `_data.meta` of an opened dataset. -/
def Dataset.meta (d : Dataset) : Meta :=
  { driver := d.driver, dtype := d.dtype, nodata := d.nodata,
    width := d.width, height := d.height, count := d.count,
    crs := d.crs, transform := d.transform,
    extra := [], bbox := [], units := [], bands := [] }

/-- Exceptions of the underlying libraries that the provider does NOT
catch: they propagate to the caller unwrapped. -/
inductive LibErr where
  /-- `rasterio.warp.transform_geom` raised (bad CRS / out-of-domain
  coordinate); the bbox block has no try/except around it. -/
  | reproj (msg : String)
  /-- `minx, miny, maxx, maxy = bbox` with `len(bbox) ∉ {0, 4}`. -/
  | unpackError
  /-- `rasterio.open(path)` raised. -/
  | openFail (path : String)
  /-- `datetime.strptime` raised ValueError (only IndexError is caught). -/
  | valueParse (dt : String)
  /-- `len(args['indexes'])` with `indexes is None` (TypeError). -/
  | typeErrorLenNone
  /-- `MemoryFile().open(self.data)`: the data path is passed as the
  `driver` argument and no width/height/count/dtype are supplied, so
  rasterio cannot create the in-memory dataset and raises. -/
  | memFileOpen (driver : String)
  /-- `out_image[0]` on an empty array (IndexError). -/
  | indexEmpty
  /-- `_data.read(indexes=...)` with a band index outside `1..count`:
  rasterio raises IndexError, and the provider's only try/except wraps
  `mask.mask`, so it propagates uncaught. -/
  | bandIndexOutOfRange (index count : Nat)
  /-- `dest.write_band(id, arr)` with `arr.shape` different from the
  destination raster's (height, width): rasterio raises, reporting the
  expected and the actual shape. -/
  | shapeMismatch (expected actual : Nat × Nat)
deriving DecidableEq, Repr

/-- Outcome kinds of one `query` call: a `ProviderQueryError` raised by
the provider itself, or an uncaught library exception. -/
inductive QueryError where
  | providerQuery (msg : String)
  | library (e : LibErr)
deriving DecidableEq, Repr

/-- Modelled from the spec: `gen_covjson` of the base `RDPAProvider`
class (`msc_pygeoapi/provider/rdpa_rasterio.py`, not part of the core
sources) serializes the metadata dict and the pixel planes into a
structured coverage object; we record both verbatim. -/
structure CovJSON where
  meta : Meta
  image : List Plane
deriving DecidableEq, Repr

/-- The in-memory native-format raster written through
`MemoryFile.open(**out_meta, nbits=nbits)` and `write_band`. -/
structure RasterOut where
  driver : String
  dtype : String
  width : Nat
  height : Nat
  count : Nat
  crs : String
  transform : List Int
  nbits : Nat
  bands : List Plane
deriving DecidableEq, Repr

/-- The value a successful `query` returns. -/
inductive QueryOutput where
  | covjson (c : CovJSON)
  | native (r : RasterOut)
deriving DecidableEq, Repr

/-- I/O actions of one `query` call, in execution order. -/
inductive Event where
  /-- `RDPAProvider.get_file_list(self, self.var, datetime_)`. -/
  | resolveCall (dt : String)
  /-- `rasterio.open(path)`. -/
  | openFile (path : String)
  /-- `rasterio.mask.mask(..., shapes=shapes, ...)`: the clip geometry
  handed to the raster reader. -/
  | clipCall (shapes : List Ring)
deriving DecidableEq, Repr

/-- The external collaborators, supplied as abstract functions:
rasterio and the base-class file resolver. -/
structure Env where
  /-- `rasterio.open`: `none` means the library raised. -/
  openFile : String → Option Dataset
  /-- `rasterio.warp.transform_geom` from EPSG:4326 into the native CRS,
  on a single point. -/
  reproject : Int × Int → Except String (Int × Int)
  /-- `rasterio.mask.mask(data, filled=False, shapes, crop=True,
  indexes)`: returns the clipped planes and the updated transform, or a
  ValueError message. -/
  clip : Dataset → List Ring → Option (List Nat) →
    Except String (List Plane × List Int)
  /-- Modelled from the spec: `RDPAProvider.get_file_list` (file
  `msc_pygeoapi/provider/rdpa_rasterio.py`, not part of the core
  sources) maps a datetime range to the ordered (ascending valid-time)
  list of matching file paths and stores it in `self.file_list`. -/
  resolveRange : String → List String
  /-- `datetime.strptime(dt, '%Y-%m-%dT%HZ').strftime('%Y%m%dT%HZ')`:
  `none` means strptime raised ValueError. -/
  parsePeriod : String → Option String

/-- The mutable provider attributes `query` reads and writes. -/
structure ProviderState where
  /-- `self.data`: the current raster file path. -/
  data : String
  /-- `self.file_list`. -/
  fileList : List String
  /-- `self.var`. -/
  var : String
  /-- `self._coverage_properties['x_axis_label']`. -/
  xLabel : String
  /-- `self._coverage_properties['y_axis_label']`. -/
  yLabel : String
  /-- `self.native_format`. -/
  nativeFormat : String
  /-- `self.options` entries (`None` is the empty list). -/
  options : List (String × String)
  /-- `self.filename`. -/
  filename : String
deriving DecidableEq, Repr

/-- The keyword arguments of `query`, with the Python defaults
`properties=[1], subsets={}, bbox=[], datetime_=None, format_='json'`. -/
structure QueryParams where
  properties : List Nat := [1]
  subsets : List (String × (Int × Int)) := []
  bbox : List Int := []
  datetime_ : Option String := none
  format_ : String := "json"
deriving DecidableEq, Repr

/-- The result of one `query` call: outcome, post-call provider state,
and the trace of I/O actions performed. -/
structure QResult where
  result : Except QueryError QueryOutput
  state : ProviderState
  trace : List Event
deriving Repr

/-- Lines 116–118: `all([x_axis_label in subsets, y_axis_label in
subsets, len(bbox) > 0])`. -/
def conflictGuard (st : ProviderState) (q : QueryParams) : Bool :=
  (q.subsets.lookup st.xLabel).isSome && (q.subsets.lookup st.yLabel).isSome &&
    !q.bbox.isEmpty

/-- Lines 137–151: the four corner reprojections, in source order
(min, max, minup, maxdown); the first failure propagates. -/
def cornerTransforms (env : Env) (minx miny maxx maxy : Int) :
    Except String ((Int × Int) × (Int × Int) × (Int × Int) × (Int × Int)) :=
  match env.reproject (minx, miny) with
  | .error e => .error e
  | .ok pmin =>
    match env.reproject (maxx, maxy) with
    | .error e => .error e
    | .ok pmax =>
      match env.reproject (minx, maxy) with
      | .error e => .error e
      | .ok pminup =>
        match env.reproject (maxx, miny) with
        | .error e => .error e
        | .ok pmaxdown => .ok (pmin, pmax, pminup, pmaxdown)

/-- Lines 123–183: build the `shapes` clip geometry from the bbox (four
independently reprojected corners) or from the native-axis subsets. -/
def computeShapes (env : Env) (st : ProviderState) (q : QueryParams) :
    Except QueryError (List Ring) :=
  if !q.bbox.isEmpty then
    match q.bbox with
    | [minx, miny, maxx, maxy] =>
      match cornerTransforms env minx miny maxx maxy with
      | .error e => .error (.library (.reproj e))
      | .ok (pmin, pmax, pminup, pmaxdown) =>
        .ok [[pmin, pminup, pmax, pmaxdown, pmin]]
    | _ => .error (.library .unpackError)
  else
    match q.subsets.lookup st.xLabel, q.subsets.lookup st.yLabel with
    | some (x0, x1), some (y0, y1) =>
      .ok [[(x0, y0), (x0, y1), (x1, y1), (x1, y0), (x0, y0)]]
    | _, _ => .ok []

/-- rasterio's band-index validity: a 1-based index within the file's
band count. -/
def bandInRange (count i : Nat) : Bool := decide (1 ≤ i) && decide (i ≤ count)

/-- `_data.read(indexes=...)`: all planes when `indexes is None`, else
the 1-based selection; a band index outside `1..count` raises
rasterio's IndexError (reported with the offending index and the band
count), which no provider code catches. -/
def datasetRead (d : Dataset) (indexes : Option (List Nat)) :
    Except LibErr (List Plane) :=
  match indexes with
  | none => .ok d.planes
  | some l =>
    match l.find? (fun i => !bandInRange d.count i) with
    | some i => .error (.bandIndexOutOfRange i d.count)
    | none => .ok (l.map (fun i => d.planes.getD (i - 1) []))

/-- Lines 185–203: datetime handling.  A single timestamp rebinds
`self.data` to the first matching file (IndexError → ProviderQueryError);
a range calls the resolver, overwriting `self.file_list`, and sets
`date_file_list`.  Python truthiness: `None` and `''` skip the block. -/
def resolveDatetime (env : Env) (st : ProviderState) (q : QueryParams) :
    Except QueryError (ProviderState × List String × List Event) :=
  match q.datetime_ with
  | none => .ok (st, [], [])
  | some dt =>
    if dt = "" then .ok (st, [], [])
    else if !hasSlash dt then
      match env.parsePeriod dt with
      | none => .error (.library (.valueParse dt))
      | some period =>
        match st.fileList.filter (fun v => pyIn period v) with
        | [] => .error (.providerQuery "Datetime value invalid or out of time domain")
        | f :: _ => .ok ({ st with data := f }, [], [])
    else
      let files := env.resolveRange dt
      .ok ({ st with fileList := files }, files, [Event.resolveCall dt])

/-- Lines 205–207: `if bands: args['indexes'] = list(map(int, bands))`;
an empty or absent band list leaves `indexes` as `None`. -/
def bandIndexes (q : QueryParams) : Option (List Nat) :=
  if q.properties.isEmpty then none else some q.properties

/-- Lines 218–237: clip with `rasterio.mask.mask` (ValueError caught and
re-raised as ProviderQueryError, `out_meta` updated with driver, cropped
height/width and new transform), or plain `read` when no shapes. -/
def clipOrRead (env : Env) (d : Dataset) (shapes : List Ring)
    (indexes : Option (List Nat)) (nativeFmt : String) (meta0 : Meta) :
    List Event × Except QueryError (Meta × List Plane) :=
  if shapes.isEmpty then
    ([],
      match datasetRead d indexes with
      | .error e => .error (.library e)
      | .ok img => .ok (meta0, img))
  else
    ([Event.clipCall shapes],
      match env.clip d shapes indexes with
      | .error e => .error (.providerQuery e)
      | .ok (img, tr) =>
        .ok ({ meta0 with
                driver := nativeFmt,
                height := (img.headD []).length,
                width := ((img.headD []).headD []).length,
                transform := tr }, img))

/-- Lines 282–299, one iteration: open one file of the range, clip it
with the same shapes (or read it whole), and take `out_image[0]`. -/
def stackStep (env : Env) (shapes : List Ring) (indexes : Option (List Nat))
    (layer : String) : List Event × Except QueryError Plane :=
  match env.openFile layer with
  | none => ([Event.openFile layer], .error (.library (.openFail layer)))
  | some src =>
    if shapes.isEmpty then
      match datasetRead src indexes with
      | .error e => ([Event.openFile layer], .error (.library e))
      | .ok [] => ([Event.openFile layer], .error (.library .indexEmpty))
      | .ok (p :: _) => ([Event.openFile layer], .ok p)
    else
      match env.clip src shapes indexes with
      | .error e =>
        ([Event.openFile layer, Event.clipCall shapes], .error (.providerQuery e))
      | .ok (img, _) =>
        match img with
        | [] => ([Event.openFile layer, Event.clipCall shapes], .error (.library .indexEmpty))
        | p :: _ => ([Event.openFile layer, Event.clipCall shapes], .ok p)

/-- Lines 280–299: the `for id, layer in enumerate(date_file_list, 1)`
loop over `dest.write_band(id, out_image[0])`.  `write_band` raises when
the plane's shape differs from the destination raster's (h, w); the
provider does not catch it, so the loop aborts there. -/
def stackLoop (env : Env) (shapes : List Ring) (indexes : Option (List Nat))
    (h w : Nat) : List String → List Event × Except QueryError (List Plane)
  | [] => ([], .ok [])
  | layer :: rest =>
    match stackStep env shapes indexes layer with
    | (ev, .error e) => (ev, .error e)
    | (ev, .ok p) =>
      if planeShape p = (h, w) then
        match stackLoop env shapes indexes h w rest with
        | (ev2, .error e) => (ev ++ ev2, .error e)
        | (ev2, .ok ps) => (ev ++ ev2, .ok (p :: ps))
      else (ev, .error (.library (.shapeMismatch (h, w) (planeShape p))))

/-- Lines 239–418: bbox/units metadata, `self.filename` update, then the
format dispatch — CovJSON (range rejected), ranged native serialization
through `MemoryFile.open(**out_meta, nbits=16)`, or the single-timestep
native branch whose `MemoryFile().open(self.data)` call cannot create a
dataset. -/
def finishQuery (env : Env) (st : ProviderState) (q : QueryParams)
    (dfl : List String) (indexes : Option (List Nat)) (d : Dataset)
    (shapes : List Ring) (meta1 : Meta) (img : List Plane)
    (ev : List Event) : QResult :=
  let metaBBox : List Int :=
    if !q.bbox.isEmpty then q.bbox
    else if !shapes.isEmpty then
      match q.subsets.lookup st.xLabel, q.subsets.lookup st.yLabel with
      | some (x0, x1), some (y0, y1) => [x0, y0, x1, y1]
      | _, _ => []
    else [d.boundsLeft, d.boundsBottom, d.boundsRight, d.boundsTop]
  let meta2 := { meta1 with bbox := metaBBox, units := d.units }
  let st2 := { st with filename := fileNameOf st.data }
  if q.format_ = "json" then
    if !dfl.isEmpty then
      { result := .error (.providerQuery "Date range not yet supported for CovJSON output"),
        state := st2, trace := ev }
    else
      { result := .ok (.covjson ⟨{ meta2 with bands := [1] }, img⟩),
        state := st2, trace := ev }
  else
    if !dfl.isEmpty then
      let meta3 := { meta2 with count := dfl.length }
      match stackLoop env shapes indexes meta3.height meta3.width dfl with
      | (ev2, .error e) => { result := .error e, state := st2, trace := ev ++ ev2 }
      | (ev2, .ok ps) =>
        { result := .ok (.native
            { driver := meta3.driver, dtype := meta3.dtype, width := meta3.width, height := meta3.height, count := meta3.count, crs := meta3.crs, transform := meta3.transform, nbits := 16, bands := ps }),
          state := st2, trace := ev ++ ev2 }
    else
      match indexes with
      | none => { result := .error (.library .typeErrorLenNone), state := st2, trace := ev }
      | some _ =>
        { result := .error (.library (.memFileOpen st2.data)), state := st2, trace := ev }

/-- The embedding of `RDPAGDALProvider.query`
(`msc_pygeoapi/provider/rdpa_gdal.py`, lines 94–418): explicit state,
explicit I/O trace, library exceptions as `QueryError.library`. -/
def query (env : Env) (st : ProviderState) (q : QueryParams) : QResult :=
  if conflictGuard st q then
    { result := .error (.providerQuery "bbox and subsetting by coordinates are exclusive"),
      state := st, trace := [] }
  else
    match computeShapes env st q with
    | .error e => { result := .error e, state := st, trace := [] }
    | .ok shapes =>
      match resolveDatetime env st q with
      | .error e => { result := .error e, state := st, trace := [] }
      | .ok (st1, dfl, ev1) =>
        let indexes := bandIndexes q
        let ev2 := ev1 ++ [Event.openFile st1.data]
        match env.openFile st1.data with
        | none => { result := .error (.library (.openFail st1.data)), state := st1, trace := ev2 }
        | some d =>
          let meta0 := { d.meta with extra := st1.options }
          match clipOrRead env d shapes indexes st1.nativeFormat meta0 with
          | (ev3, .error e) => { result := .error e, state := st1, trace := ev2 ++ ev3 }
          | (ev3, .ok (meta1, img)) =>
            finishQuery env st1 q dfl indexes d shapes meta1 img (ev2 ++ ev3)

/-! ## Sample environment used by the concrete witnesses -/

/-- A two-band 1×1 dataset with distinct planes, used as concrete
witness material. -/
def ds2 : Dataset :=
  { driver := "GRIB", dtype := "float64", nodata := some 0,
    width := 1, height := 1, count := 2, crs := "native",
    transform := [0, 1, 0, 0, 0, 1],
    boundsLeft := 0, boundsBottom := 0, boundsRight := 1, boundsTop := 1,
    units := ["mm"], planes := [[[1]], [[2]]] }

/-- A concrete environment: three openable files, a total linear
reprojection, a clip that returns the band selection unchanged, and a
resolver knowing one range and one single timestamp. -/
def sEnv : Env :=
  { openFile := fun p =>
      if p = "base" then some ds2
      else if p = "fA" then some ds2
      else if p = "fB" then some ds2
      else none,
    reproject := fun pt => .ok (pt.1 * 10, pt.2 * 10),
    clip := fun d _ idx =>
      match datasetRead d idx with
      | .ok img => .ok (img, d.transform)
      | .error _ => .error "band index out of range",
    resolveRange := fun dt =>
      if dt = "2023-06-01T00Z/2023-06-03T00Z" then ["fA", "fB"] else [],
    parsePeriod := fun dt =>
      if dt = "2023-06-02T00Z" then some "20230602T00Z" else none }

/-- A concrete provider state pointing at `base`. -/
def sSt : ProviderState :=
  { data := "base", fileList := ["dir/20230601T00Z_base", "dir/20230602T00Z_fA"],
    var := "06h", xLabel := "x", yLabel := "y", nativeFormat := "GRIB",
    options := [], filename := "" }

/-- Discriminator: is a query outcome a ProviderQueryError (a structured
query error, as opposed to an uncaught library exception or success)? -/
def isProviderQueryError : Except QueryError QueryOutput → Bool
  | .error (.providerQuery _) => true
  | _ => false

/-- Discriminator: is a query outcome any error at all? -/
def isQueryError : Except QueryError QueryOutput → Bool
  | .error _ => true
  | .ok _ => false

/-! ## Helper lemmas -/

/-- A band selection that lies within the file's band count reads
successfully, yielding the selected planes. -/
theorem datasetRead_in_range (d : Dataset) (l : List Nat)
    (hin : ∀ i ∈ l, 1 ≤ i ∧ i ≤ d.count) :
    datasetRead d (some l) = .ok (l.map (fun i => d.planes.getD (i - 1) [])) := by
  have hfind : l.find? (fun i => !bandInRange d.count i) = none := by
    rw [List.find?_eq_none]
    intro i hi
    simp [bandInRange, (hin i hi).1, (hin i hi).2]
  simp [datasetRead, hfind]

/-- An empty or in-range band selection makes the main read succeed. -/
theorem bandIndexes_read_ok (d : Dataset) (q : QueryParams)
    (hin : ∀ i ∈ q.properties, 1 ≤ i ∧ i ≤ d.count) :
    ∃ img, datasetRead d (bandIndexes q) = .ok img := by
  unfold bandIndexes
  by_cases hp : q.properties.isEmpty = true
  · rw [if_pos hp]
    exact ⟨d.planes, rfl⟩
  · rw [if_neg hp]
    exact ⟨_, datasetRead_in_range d q.properties hin⟩

/-- Every branch of `finishQuery` keeps the events accumulated so far as
a prefix of the final trace. -/
theorem finishQuery_trace_extends (env : Env) (st : ProviderState)
    (q : QueryParams) (dfl : List String) (indexes : Option (List Nat))
    (d : Dataset) (shapes : List Ring) (meta1 : Meta) (img : List Plane)
    (ev : List Event) :
    ∃ t, (finishQuery env st q dfl indexes d shapes meta1 img ev).trace = ev ++ t := by
  unfold finishQuery
  dsimp only
  repeat' split
  all_goals first
    | exact ⟨[], (List.append_nil _).symm⟩
    | exact ⟨_, rfl⟩

/-! ## C3 -/

/-- C3 amended: a query supplying a bbox together with native-axis
subsets for BOTH spatial axes is rejected with a ProviderQueryError
(the "bbox and subsetting by coordinates are exclusive" message) before
any I/O: the trace is empty (no resolver call, no file opened) and the
provider state is untouched. -/
theorem c3_conflicting_subsets_rejected_pre_io (env : Env)
    (st : ProviderState) (q : QueryParams)
    (hx : (q.subsets.lookup st.xLabel).isSome = true)
    (hy : (q.subsets.lookup st.yLabel).isSome = true)
    (hb : q.bbox ≠ []) :
    (query env st q).result =
      .error (.providerQuery "bbox and subsetting by coordinates are exclusive") ∧
    (query env st q).trace = [] ∧ (query env st q).state = st := by
  have hguard : conflictGuard st q = true := by
    cases hbb : q.bbox with
    | nil => exact absurd hbb hb
    | cons a t => simp [conflictGuard, hx, hy, hbb]
  simp [query, hguard]

/-- Witness for C3 at a concrete input. -/
theorem c3_witness :
    ((sEnv.openFile "base").isSome = true) ∧
    (query sEnv sSt
      { properties := [1], subsets := [("x", (0, 1)), ("y", (0, 1))],
        bbox := [-100, 40, -90, 50], datetime_ := none, format_ := "json" }).result =
      .error (.providerQuery "bbox and subsetting by coordinates are exclusive") ∧
    (query sEnv sSt
      { properties := [1], subsets := [("x", (0, 1)), ("y", (0, 1))],
        bbox := [-100, 40, -90, 50], datetime_ := none, format_ := "json" }).trace = [] := by
  refine ⟨rfl, ?_⟩
  have h := c3_conflicting_subsets_rejected_pre_io sEnv sSt
    { properties := [1], subsets := [("x", (0, 1)), ("y", (0, 1))],
      bbox := [-100, 40, -90, 50], datetime_ := none, format_ := "json" }
    (by decide) (by decide) (by decide)
  exact ⟨h.1, h.2.1⟩

/-- The query of the C3 counterexample: a bbox together with a
native-axis subset for only ONE spatial axis. -/
def c3Q : QueryParams :=
  { properties := [1], subsets := [("x", (0, 1))],
    bbox := [-100, 40, -90, 50], datetime_ := none, format_ := "json" }

/-- The structured response `c3Q` produces. -/
def c3Cov : CovJSON :=
  { meta :=
      { driver := "GRIB", dtype := "float64", nodata := some 0, width := 1, height := 1, count := 2, crs := "native", transform := [0, 1, 0, 0, 0, 1], extra := [], bbox := [-100, 40, -90, 50], units := ["mm"], bands := [1] },
    image := [[[1]]] }

/-- Counterexample for C3: a query supplying a bbox together with a
native-axis subset for one spatial axis only is NOT rejected — the
conflict check at lines 116–121 fires only when both axis labels are
present — so the lone subset is silently ignored and the bbox query
runs through to a successful structured response, with I/O performed. -/
theorem c3_counterexample :
    c3Q.bbox ≠ [] ∧ c3Q.subsets ≠ [] ∧
    (query sEnv sSt c3Q).result = .ok (.covjson c3Cov) ∧
    isQueryError (query sEnv sSt c3Q).result = false :=
  ⟨by decide, by decide, rfl, rfl⟩

/-! ## C1 -/

/-- C1: for a query supplying a bbox and no native-axis subsets, the
clip geometry handed to the raster reader is the closed five-vertex
polygon whose vertices are the four bbox corners, each independently
reprojected into the native CRS, in the order (minx,miny), (minx,maxy),
(maxx,maxy), (maxx,miny), with the first vertex repeated as the fifth. -/
theorem c1_bbox_clip_polygon (env : Env) (st st1 : ProviderState)
    (q : QueryParams) (minx miny maxx maxy : Int)
    (p1 p2 p3 p4 : Int × Int) (dfl : List String) (ev1 : List Event)
    (d : Dataset)
    (hbbox : q.bbox = [minx, miny, maxx, maxy])
    (hsub : q.subsets.lookup st.xLabel = none)
    (h1 : env.reproject (minx, miny) = .ok p1)
    (h2 : env.reproject (minx, maxy) = .ok p2)
    (h3 : env.reproject (maxx, maxy) = .ok p3)
    (h4 : env.reproject (maxx, miny) = .ok p4)
    (hdt : resolveDatetime env st q = .ok (st1, dfl, ev1))
    (hopen : env.openFile st1.data = some d) :
    Event.clipCall [[p1, p2, p3, p4, p1]] ∈ (query env st q).trace := by
  have hguard : conflictGuard st q = false := by simp [conflictGuard, hsub]
  have hcs : computeShapes env st q = .ok [[p1, p2, p3, p4, p1]] := by
    simp [computeShapes, hbbox, cornerTransforms, h1, h2, h3, h4]
  simp only [query, hguard, hcs, hdt, hopen, Bool.false_eq_true, if_false, clipOrRead,
    List.isEmpty_cons]
  generalize bandIndexes q = idx
  cases hclip : env.clip d [[p1, p2, p3, p4, p1]] idx with
  | error e => simp [hclip]
  | ok val =>
    obtain ⟨img, tr⟩ := val
    simp only [hclip]
    obtain ⟨t, ht⟩ := finishQuery_trace_extends env st1 q dfl idx d
      [[p1, p2, p3, p4, p1]] _ img
      ((ev1 ++ [Event.openFile st1.data]) ++ [Event.clipCall [[p1, p2, p3, p4, p1]]])
    rw [ht]
    simp

/-- Witness for C1 at a concrete input. -/
theorem c1_witness :
    Event.clipCall [[(-1000, 400), (-1000, 500), (-900, 500), (-900, 400), (-1000, 400)]] ∈
      (query sEnv sSt
        { properties := [1], subsets := [], bbox := [-100, 40, -90, 50],
          datetime_ := none, format_ := "GTiff" }).trace :=
  c1_bbox_clip_polygon sEnv sSt sSt
    { properties := [1], subsets := [], bbox := [-100, 40, -90, 50],
      datetime_ := none, format_ := "GTiff" }
    (-100) 40 (-90) 50 (-1000, 400) (-1000, 500) (-900, 500) (-900, 400)
    [] [] ds2 rfl rfl rfl rfl rfl rfl rfl rfl

/-! ## C8 -/

/-- The query of the C8 counterexample. -/
def c8Q : QueryParams :=
  { properties := [1], subsets := [], bbox := [-100, 40, -90, 50],
    datetime_ := none, format_ := "json" }

/-- An environment whose corner reprojection always raises. -/
def c8Env : Env := { sEnv with reproject := fun _ => .error "proj err" }

/-- Counterexample for C8: when the bbox reprojection fails, the query
raises the library exception unwrapped — the result is not a
ProviderQueryError for any message — so the failure does NOT surface as
a structured query error. -/
theorem c8_counterexample :
    (query c8Env sSt c8Q).result = .error (.library (.reproj "proj err")) ∧
    isProviderQueryError (query c8Env sSt c8Q).result = false :=
  ⟨rfl, rfl⟩

/-- C8 amended: a failing bbox corner reprojection propagates as an
uncaught library exception (not wrapped into a ProviderQueryError), and
it is raised before any raster file is accessed (empty I/O trace). -/
theorem c8_amended_reproj_uncaught (env : Env) (st : ProviderState)
    (q : QueryParams) (minx miny maxx maxy : Int) (e : String)
    (hbbox : q.bbox = [minx, miny, maxx, maxy])
    (hguard : conflictGuard st q = false)
    (hct : cornerTransforms env minx miny maxx maxy = .error e) :
    (query env st q).result = .error (.library (.reproj e)) ∧
    (query env st q).trace = [] := by
  have hcs : computeShapes env st q = .error (.library (.reproj e)) := by
    simp [computeShapes, hbbox, hct]
  simp [query, hguard, hcs]

/-- Witness for the amended C8 at a concrete input. -/
theorem c8_amended_witness :
    (query c8Env sSt c8Q).result = .error (.library (.reproj "proj err")) ∧
    (query c8Env sSt c8Q).trace = [] :=
  c8_amended_reproj_uncaught c8Env sSt c8Q (-100) 40 (-90) 50 "proj err"
    rfl rfl rfl

/-! ## C5 -/

/-- C5 (the code, not the claim): every single-timestep native-format
query ends in an uncaught library error, because the serialization call
`MemoryFile().open(self.data)` passes the data path as the `driver`
argument and none of the `out_meta` fields, so the in-memory dataset
cannot be created; no raster carrying the block's metadata is ever
produced. -/
theorem c5_native_single_memfile_bug (env : Env) (st : ProviderState)
    (bands : List Nat) (fmt : String) (d : Dataset)
    (hb : bands ≠ []) (hfmt : fmt ≠ "json")
    (hopen : env.openFile st.data = some d)
    (hin : ∀ i ∈ bands, 1 ≤ i ∧ i ≤ d.count) :
    (query env st
      { properties := bands, subsets := [], bbox := [],
        datetime_ := none, format_ := fmt }).result =
      .error (.library (.memFileOpen st.data)) := by
  have hfind : bands.find? (fun i => !bandInRange d.count i) = none := by
    rw [List.find?_eq_none]
    intro i hi
    simp [bandInRange, (hin i hi).1, (hin i hi).2]
  obtain ⟨b, bs, rfl⟩ : ∃ b bs, bands = b :: bs := by
    cases bands with
    | nil => exact absurd rfl hb
    | cons b bs => exact ⟨b, bs, rfl⟩
  simp [query, conflictGuard, computeShapes, resolveDatetime, clipOrRead, bandIndexes,
    datasetRead, hfind, finishQuery, hopen, hfmt]

/-- Witness for C5 at a concrete input. -/
theorem c5_witness :
    ([1] ≠ ([] : List Nat)) ∧ ("GTiff" ≠ "json") ∧
    (∀ i ∈ [1], 1 ≤ i ∧ i ≤ ds2.count) ∧
    (query sEnv sSt
      { properties := [1], subsets := [], bbox := [],
        datetime_ := none, format_ := "GTiff" }).result =
      .error (.library (.memFileOpen "base")) :=
  ⟨by decide, by decide, by decide,
    c5_native_single_memfile_bug sEnv sSt [1] "GTiff" ds2
      (by decide) (by decide) rfl (by decide)⟩

/-! ## C4 -/

/-- The `out_meta` dict of an unclipped single-timestep CovJSON
response: the dataset's own metadata plus the provider's additions
(options, native bounds as bbox, units, bands forced to `[1]`). -/
def covMetaNoClip (st : ProviderState) (d : Dataset) : Meta :=
  { d.meta with
      extra := st.options,
      bbox := [d.boundsLeft, d.boundsBottom, d.boundsRight, d.boundsTop],
      units := d.units, bands := [1] }

/-- The multi-band structured query of the C4 counterexample. -/
def c4Q : QueryParams :=
  { properties := [1, 2], subsets := [], bbox := [],
    datetime_ := none, format_ := "json" }

/-- Counterexample for C4: a structured-format query requesting two
bands does NOT fail — it returns a CovJSON result (with the bands
metadata silently overridden to `[1]`), never an error of any kind. -/
theorem c4_counterexample :
    c4Q.properties.length = 2 ∧
    (query sEnv sSt c4Q).result =
      .ok (.covjson ⟨covMetaNoClip sSt ds2, [[[1]], [[2]]]⟩) ∧
    isQueryError (query sEnv sSt c4Q).result = false :=
  ⟨rfl, rfl, rfl⟩

/-- C4 amended: a structured-format (json) query requesting more than
one band is not rejected: the provider silently overrides the bands
metadata to `[1]` and returns a structured response built from the
full multi-band selection.  `query` is a pure function of its
arguments here, so the outcome is the same however often and in
whatever order the request runs. -/
theorem c4_amended_json_multiband_not_rejected (env : Env)
    (st : ProviderState) (bands : List Nat) (d : Dataset)
    (hlen : 1 < bands.length)
    (hopen : env.openFile st.data = some d)
    (hin : ∀ i ∈ bands, 1 ≤ i ∧ i ≤ d.count) :
    (query env st
      { properties := bands, subsets := [], bbox := [],
        datetime_ := none, format_ := "json" }).result =
      .ok (.covjson ⟨covMetaNoClip st d,
        bands.map (fun i => d.planes.getD (i - 1) [])⟩) ∧
    (covMetaNoClip st d).bands = [1] := by
  have hfind : bands.find? (fun i => !bandInRange d.count i) = none := by
    rw [List.find?_eq_none]
    intro i hi
    simp [bandInRange, (hin i hi).1, (hin i hi).2]
  obtain ⟨b, bs, rfl⟩ : ∃ b bs, bands = b :: bs := by
    cases bands with
    | nil => simp at hlen
    | cons b bs => exact ⟨b, bs, rfl⟩
  refine ⟨?_, rfl⟩
  simp [query, conflictGuard, computeShapes, resolveDatetime, clipOrRead, bandIndexes,
    datasetRead, hfind, finishQuery, hopen, covMetaNoClip, Dataset.meta]

/-- Witness for the amended C4 at a concrete input. -/
theorem c4_amended_witness :
    (1 < [1, 2].length) ∧ (∀ i ∈ [1, 2], 1 ≤ i ∧ i ≤ ds2.count) ∧
    (query sEnv sSt
      { properties := [1, 2], subsets := [], bbox := [],
        datetime_ := none, format_ := "json" }).result =
      .ok (.covjson ⟨covMetaNoClip sSt ds2, [[[1]], [[2]]]⟩) :=
  ⟨by decide, by decide,
    (c4_amended_json_multiband_not_rejected sEnv sSt [1, 2] ds2 (by decide)
      rfl (by decide)).1⟩

/-! ## C6 -/

/-- The json-format range query of the C6 counterexample. -/
def c6Q : QueryParams :=
  { properties := [1], subsets := [], bbox := [],
    datetime_ := some "2023-06-01T00Z/2023-06-03T00Z", format_ := "json" }

/-- Counterexample for C6: the range CovJSON request IS rejected with a
ProviderQueryError, but the trace of that very run already contains a
raster open event (`rasterio.open(self.data)` runs before the format
check), so raster I/O does occur before the rejection. -/
theorem c6_counterexample :
    (query sEnv sSt c6Q).result =
      .error (.providerQuery "Date range not yet supported for CovJSON output") ∧
    (query sEnv sSt c6Q).trace =
      [Event.resolveCall "2023-06-01T00Z/2023-06-03T00Z", Event.openFile "base"] :=
  ⟨rfl, rfl⟩

/-- C6 amended: a structured-format query with a datetime range
resolving to at least one file (and a band selection within the file's
band count, so that the preceding read does not itself raise) is
rejected with a ProviderQueryError, but only after the provider's
current data file has been opened and read: the rejected run's trace
contains the raster open event. -/
theorem c6_amended_json_range_rejected_after_open (env : Env)
    (st : ProviderState) (q : QueryParams) (dt : String) (d : Dataset)
    (hfmt : q.format_ = "json")
    (hdt : q.datetime_ = some dt) (hne : dt ≠ "")
    (hslash : hasSlash dt = true)
    (hfiles : env.resolveRange dt ≠ [])
    (hbbox : q.bbox = []) (hsub : q.subsets = [])
    (hopen : env.openFile st.data = some d)
    (hin : ∀ i ∈ q.properties, 1 ≤ i ∧ i ≤ d.count) :
    (query env st q).result =
      .error (.providerQuery "Date range not yet supported for CovJSON output") ∧
    Event.openFile st.data ∈ (query env st q).trace := by
  have hguard : conflictGuard st q = false := by simp [conflictGuard, hbbox]
  have hcs : computeShapes env st q = .ok [] := by
    simp [computeShapes, hbbox, hsub]
  have hrd : resolveDatetime env st q =
      .ok ({ st with fileList := env.resolveRange dt }, env.resolveRange dt,
        [Event.resolveCall dt]) := by
    simp [resolveDatetime, hdt, hne, hslash]
  obtain ⟨f, fs, hf⟩ : ∃ f fs, env.resolveRange dt = f :: fs := by
    cases h : env.resolveRange dt with
    | nil => exact absurd h hfiles
    | cons f fs => exact ⟨f, fs, rfl⟩
  obtain ⟨img, hds⟩ := bandIndexes_read_ok d q hin
  simp [query, hguard, hcs, hrd, hopen, clipOrRead, hds, finishQuery, hfmt, hf]

/-- Witness for the amended C6 at a concrete input. -/
theorem c6_amended_witness :
    (query sEnv sSt c6Q).result =
      .error (.providerQuery "Date range not yet supported for CovJSON output") ∧
    Event.openFile "base" ∈ (query sEnv sSt c6Q).trace :=
  c6_amended_json_range_rejected_after_open sEnv sSt c6Q
    "2023-06-01T00Z/2023-06-03T00Z" ds2 rfl rfl (by decide) rfl
    (by decide) rfl rfl rfl (by decide)

/-! ## C9 -/

/-- The band-list-absent structured query of the C9 counterexample
(Python default `properties=[1]`). -/
def c9Q : QueryParams := { format_ := "json" }

/-- Counterexample for C9: with the band list absent the Python default
`properties=[1]` applies, so the read selects band 1 only — on a
two-band dataset the structured response carries a single plane, not
all bands. -/
theorem c9_counterexample :
    c9Q.properties = [1] ∧ ds2.count = 2 ∧
    (query sEnv sSt c9Q).result =
      .ok (.covjson ⟨covMetaNoClip sSt ds2, [[[1]]]⟩) ∧
    ([[[1]]] : List Plane) ≠ ds2.planes := by
  exact ⟨rfl, rfl, rfl, by decide⟩

/-- C9 amended: an explicitly empty band list defaults the read to all
bands for structured output (`indexes=None`); but the absent-list
default parameter is `[1]` (band 1 only), and an empty band list
combined with single-timestep native output raises an uncaught
TypeError (`len(None)`) instead of reading all bands. -/
theorem c9_amended_band_defaults (env : Env) (st : ProviderState)
    (d : Dataset) (fmt : String)
    (hopen : env.openFile st.data = some d) (hfmt : fmt ≠ "json") :
    (query env st
      { properties := [], subsets := [], bbox := [],
        datetime_ := none, format_ := "json" }).result =
      .ok (.covjson ⟨covMetaNoClip st d, d.planes⟩) ∧
    (query env st
      { properties := [], subsets := [], bbox := [],
        datetime_ := none, format_ := fmt }).result =
      .error (.library .typeErrorLenNone) ∧
    ({} : QueryParams).properties = [1] := by
  refine ⟨?_, ?_, rfl⟩
  · simp [query, conflictGuard, computeShapes, resolveDatetime, clipOrRead, bandIndexes,
      finishQuery, hopen, covMetaNoClip, Dataset.meta, datasetRead]
  · simp [query, conflictGuard, computeShapes, resolveDatetime, clipOrRead, bandIndexes,
      datasetRead, finishQuery, hopen, hfmt]

/-- Witness for the amended C9 at a concrete input. -/
theorem c9_amended_witness :
    (query sEnv sSt
      { properties := [], subsets := [], bbox := [],
        datetime_ := none, format_ := "json" }).result =
      .ok (.covjson ⟨covMetaNoClip sSt ds2, ds2.planes⟩) ∧
    (query sEnv sSt
      { properties := [], subsets := [], bbox := [],
        datetime_ := none, format_ := "GTiff" }).result =
      .error (.library .typeErrorLenNone) :=
  ⟨(c9_amended_band_defaults sEnv sSt ds2 "GTiff" rfl (by decide)).1,
   (c9_amended_band_defaults sEnv sSt ds2 "GTiff" rfl (by decide)).2.1⟩

/-! ## More helper lemmas -/

/-- The provider state returned by `finishQuery` is always the input
state with only `filename` updated. -/
theorem finishQuery_state (env : Env) (st : ProviderState) (q : QueryParams)
    (dfl : List String) (indexes : Option (List Nat)) (d : Dataset)
    (shapes : List Ring) (meta1 : Meta) (img : List Plane) (ev : List Event) :
    (finishQuery env st q dfl indexes d shapes meta1 img ev).state =
      { st with filename := fileNameOf st.data } := by
  unfold finishQuery
  dsimp only
  repeat' split
  all_goals rfl

/-- Whenever the guard, shapes and datetime stages succeed, `query`
opens `st1.data` right after the datetime stage: the final state keeps
`st1`'s data path and file list, and the trace starts with the datetime
events followed by that open event. -/
theorem query_open_and_state (env : Env) (st st1 : ProviderState)
    (q : QueryParams) (shapes : List Ring) (dfl : List String)
    (ev1 : List Event)
    (hguard : conflictGuard st q = false)
    (hcs : computeShapes env st q = .ok shapes)
    (hrd : resolveDatetime env st q = .ok (st1, dfl, ev1)) :
    (query env st q).state.data = st1.data ∧
    (query env st q).state.fileList = st1.fileList ∧
    ∃ t, (query env st q).trace = (ev1 ++ [Event.openFile st1.data]) ++ t := by
  simp only [query, hguard, Bool.false_eq_true, if_false, hcs, hrd]
  cases hopen : env.openFile st1.data with
  | none => simp
  | some d =>
    cases hcr : clipOrRead env d shapes (bandIndexes q) st1.nativeFormat
        { d.meta with extra := st1.options } with
    | mk ev3 res =>
      cases res with
      | error e =>
        dsimp only
        rw [hcr]
        exact ⟨rfl, rfl, ⟨ev3, rfl⟩⟩
      | ok pr =>
        obtain ⟨meta1, img⟩ := pr
        dsimp only
        rw [hcr]
        dsimp only
        have hst := finishQuery_state env st1 q dfl (bandIndexes q) d shapes
          meta1 img ((ev1 ++ [Event.openFile st1.data]) ++ ev3)
        obtain ⟨t, ht⟩ := finishQuery_trace_extends env st1 q dfl (bandIndexes q)
          d shapes meta1 img ((ev1 ++ [Event.openFile st1.data]) ++ ev3)
        rw [hst, ht]
        exact ⟨rfl, rfl, ⟨ev3 ++ t, by rw [List.append_assoc]⟩⟩

/-- A successful `stackLoop` run writes exactly one plane per file, in
order: band `i` (0-based here) is the first plane of the band-selected
read of file `i`, clipped with the same shapes. -/
theorem stackLoop_ok_spec (env : Env) (shapes : List Ring)
    (indexes : Option (List Nat)) (h w : Nat) :
    ∀ (files : List String) (ev : List Event) (ps : List Plane),
      stackLoop env shapes indexes h w files = (ev, .ok ps) →
      ps.length = files.length ∧
      ∀ i, i < files.length →
        (stackStep env shapes indexes (files.getD i "")).2 =
          .ok (ps.getD i []) := by
  intro files
  induction files with
  | nil =>
    intro ev ps hsl
    simp only [stackLoop, Prod.mk.injEq, Except.ok.injEq] at hsl
    obtain ⟨-, hps⟩ := hsl
    subst hps
    exact ⟨rfl, fun i hi => absurd hi (by simp)⟩
  | cons layer rest ih =>
    intro ev ps hsl
    unfold stackLoop at hsl
    cases hstep : stackStep env shapes indexes layer with
    | mk ev0 res =>
      rw [hstep] at hsl
      cases res with
      | error e => simp at hsl
      | ok p =>
        dsimp only at hsl
        by_cases hsh : planeShape p = (h, w)
        · rw [if_pos hsh] at hsl
          cases hrest : stackLoop env shapes indexes h w rest with
          | mk ev2 res2 =>
            rw [hrest] at hsl
            cases res2 with
            | error e => simp at hsl
            | ok ps' =>
              simp only [Prod.mk.injEq, Except.ok.injEq] at hsl
              obtain ⟨-, hps⟩ := hsl
              subst hps
              obtain ⟨hlen, hall⟩ := ih ev2 ps' hrest
              refine ⟨by simpa using hlen, ?_⟩
              intro i hi
              cases i with
              | zero => simp [hstep]
              | succ j =>
                have hj : j < rest.length := by simpa using hi
                simpa using hall j hj
        · rw [if_neg hsh] at hsl
          simp at hsl

/-- If every file of the range reads fine but some file's plane has a
shape different from the destination raster's (h, w), the write loop
aborts with the library's shape-mismatch error carrying both shapes. -/
theorem stackLoop_mismatch_error (env : Env) (shapes : List Ring)
    (indexes : Option (List Nat)) (h w : Nat) :
    ∀ (files : List String),
      (∀ f ∈ files, ∃ p, (stackStep env shapes indexes f).2 = .ok p) →
      (∃ f ∈ files, ∃ p, (stackStep env shapes indexes f).2 = .ok p ∧
        planeShape p ≠ (h, w)) →
      ∃ ev s, s ≠ (h, w) ∧
        stackLoop env shapes indexes h w files =
          (ev, .error (.library (.shapeMismatch (h, w) s))) := by
  intro files
  induction files with
  | nil =>
    intro _ hex
    rcases hex with ⟨f, hf, -⟩
    exact absurd hf (List.not_mem_nil f)
  | cons layer rest ih =>
    intro hall hex
    obtain ⟨p0, hp0⟩ := hall layer (by simp)
    cases hstep : stackStep env shapes indexes layer with
    | mk ev0 res =>
      rw [hstep] at hp0
      simp only at hp0
      subst hp0
      by_cases hsh : planeShape p0 = (h, w)
      · have hex' : ∃ f ∈ rest, ∃ p, (stackStep env shapes indexes f).2 = .ok p ∧
            planeShape p ≠ (h, w) := by
          rcases hex with ⟨f, hf, p, hp, hps⟩
          rcases List.mem_cons.mp hf with rfl | hfr
          · rw [hstep] at hp
            simp only at hp
            injection hp with hp
            subst hp
            exact absurd hsh hps
          · exact ⟨f, hfr, p, hp, hps⟩
        obtain ⟨ev2, s, hs, hsl⟩ := ih (fun f hf => hall f (by simp [hf])) hex'
        refine ⟨ev0 ++ ev2, s, hs, ?_⟩
        unfold stackLoop
        rw [hstep]
        dsimp only
        rw [if_pos hsh, hsl]
      · refine ⟨ev0, planeShape p0, hsh, ?_⟩
        unfold stackLoop
        rw [hstep]
        dsimp only
        rw [if_neg hsh]

/-! ## C2 -/

/-- The native range query of the C2 counterexample: band selection
`[2]`. -/
def c2Q : QueryParams :=
  { properties := [2], subsets := [], bbox := [],
    datetime_ := some "2023-06-01T00Z/2023-06-03T00Z", format_ := "GTiff" }

/-- The raster `c2Q` produces. -/
def c2Out : RasterOut :=
  { driver := "GRIB", dtype := "float64", width := 1, height := 1,
    count := 2, crs := "native", transform := [0, 1, 0, 0, 0, 1],
    nbits := 16, bands := [[[2]], [[2]]] }

/-- Counterexample for C2: with band selection `[2]`, output band 1
holds the plane of band 2 of the first resolved file (`[[2]]`), not the
plane obtained by reading band 1 of that file (`[[1]]`): the loop
writes `out_image[0]`, the first SELECTED band, not band 1. -/
theorem c2_counterexample :
    (query sEnv sSt c2Q).result = .ok (.native c2Out) ∧
    c2Out.bands.getD 0 [] = [[2]] ∧
    (sEnv.openFile ((sEnv.resolveRange "2023-06-01T00Z/2023-06-03T00Z").getD 0 "")).map
      (fun d => d.planes.getD 0 []) = some [[1]] ∧
    ([[2]] : Plane) ≠ ([[1]] : Plane) := by
  refine ⟨rfl, rfl, rfl, by decide⟩

/-- C2 amended: a successful native-format range query returns a raster
with exactly one band per resolved file (count = number of files), and
band `i` holds the FIRST SELECTED band of the `i`-th file in resolver
order — band 1 exactly when the band selection is `[1]` (the default)
or empty — with the same clip shapes and band selection applied to
every file (`stackStep`). -/
theorem c2_amended_native_range_first_selected_band (env : Env)
    (st : ProviderState) (q : QueryParams) (dt : String)
    (shapes : List Ring) (r : RasterOut)
    (hdt : q.datetime_ = some dt) (hne : dt ≠ "")
    (hslash : hasSlash dt = true) (hfmt : q.format_ ≠ "json")
    (hguard : conflictGuard st q = false)
    (hcs : computeShapes env st q = .ok shapes)
    (hq : (query env st q).result = .ok (.native r)) :
    r.count = (env.resolveRange dt).length ∧
    r.bands.length = (env.resolveRange dt).length ∧
    ∀ i, i < (env.resolveRange dt).length →
      (stackStep env shapes (bandIndexes q)
        ((env.resolveRange dt).getD i "")).2 = .ok (r.bands.getD i []) := by
  have hrd : resolveDatetime env st q =
      .ok ({ st with fileList := env.resolveRange dt }, env.resolveRange dt,
        [Event.resolveCall dt]) := by
    simp [resolveDatetime, hdt, hne, hslash]
  simp only [query, hguard, Bool.false_eq_true, if_false, hcs, hrd] at hq
  split at hq
  · simp at hq
  · split at hq
    · simp at hq
    · unfold finishQuery at hq
      rw [if_neg hfmt] at hq
      dsimp only at hq
      split at hq
      · split at hq
        · simp at hq
        · next ev2 ps heq =>
          simp only [QResult.result, Except.ok.injEq, QueryOutput.native.injEq] at hq
          subst hq
          obtain ⟨hlen, hall⟩ := stackLoop_ok_spec env shapes (bandIndexes q)
            _ _ (env.resolveRange dt) ev2 ps heq
          exact ⟨rfl, hlen, hall⟩
      · split at hq
        · simp at hq
        · simp at hq

/-- Witness for the amended C2 at a concrete input (two resolved files,
band selection `[2]`). -/
theorem c2_amended_witness :
    c2Out.count = (sEnv.resolveRange "2023-06-01T00Z/2023-06-03T00Z").length ∧
    c2Out.bands.length = (sEnv.resolveRange "2023-06-01T00Z/2023-06-03T00Z").length ∧
    ∀ i, i < (sEnv.resolveRange "2023-06-01T00Z/2023-06-03T00Z").length →
      (stackStep sEnv [] (bandIndexes c2Q)
        ((sEnv.resolveRange "2023-06-01T00Z/2023-06-03T00Z").getD i "")).2 =
        .ok (c2Out.bands.getD i []) :=
  c2_amended_native_range_first_selected_band sEnv sSt c2Q
    "2023-06-01T00Z/2023-06-03T00Z" [] c2Out rfl (by decide) rfl
    (by decide) rfl rfl rfl

/-! ## C7 -/

/-- C7: for a native-format datetime-range query in which every file of
the range reads fine but the resolved files do NOT all report the
identical post-clip shape, the request fails with the shape-mismatch
error carrying the two conflicting shapes; the mismatching file is not
skipped and no raster is returned. -/
theorem c7_shape_mismatch_fatal (env : Env) (st : ProviderState)
    (q : QueryParams) (dt : String) (shapes : List Ring) (d : Dataset)
    (ev3 : List Event) (meta1 : Meta) (img : List Plane)
    (hdt : q.datetime_ = some dt) (hne : dt ≠ "")
    (hslash : hasSlash dt = true) (hfmt : q.format_ ≠ "json")
    (hguard : conflictGuard st q = false)
    (hcs : computeShapes env st q = .ok shapes)
    (hopen : env.openFile st.data = some d)
    (hcr : clipOrRead env d shapes (bandIndexes q) st.nativeFormat
      { d.meta with extra := st.options } = (ev3, .ok (meta1, img)))
    (hall : ∀ f ∈ env.resolveRange dt, ∃ p,
      (stackStep env shapes (bandIndexes q) f).2 = .ok p)
    (hmis : ∃ f ∈ env.resolveRange dt, ∃ g ∈ env.resolveRange dt,
      ∃ p pg, (stackStep env shapes (bandIndexes q) f).2 = .ok p ∧
        (stackStep env shapes (bandIndexes q) g).2 = .ok pg ∧
        planeShape p ≠ planeShape pg) :
    ∃ s1 s2, s1 ≠ s2 ∧
      (query env st q).result = .error (.library (.shapeMismatch s1 s2)) ∧
      ∀ out, (query env st q).result ≠ .ok out := by
  have hrd : resolveDatetime env st q =
      .ok ({ st with fileList := env.resolveRange dt }, env.resolveRange dt,
        [Event.resolveCall dt]) := by
    simp [resolveDatetime, hdt, hne, hslash]
  obtain ⟨f, hf, g, hg, p, pg, hp, hpg, hnepg⟩ := hmis
  have hexists : ∃ f ∈ env.resolveRange dt, ∃ p,
      (stackStep env shapes (bandIndexes q) f).2 = .ok p ∧
      planeShape p ≠ (meta1.height, meta1.width) := by
    by_cases hc : planeShape p = (meta1.height, meta1.width)
    · exact ⟨g, hg, pg, hpg, fun hcon => hnepg (hc.trans hcon.symm)⟩
    · exact ⟨f, hf, p, hp, hc⟩
  obtain ⟨ev, s, hs, hsl⟩ := stackLoop_mismatch_error env shapes (bandIndexes q)
    meta1.height meta1.width (env.resolveRange dt) hall hexists
  obtain ⟨a, as, hfl⟩ : ∃ a as, env.resolveRange dt = a :: as := by
    cases h : env.resolveRange dt with
    | nil => rw [h] at hf; exact absurd hf (List.not_mem_nil f)
    | cons a as => exact ⟨a, as, rfl⟩
  have hres : (query env st q).result =
      .error (.library (.shapeMismatch (meta1.height, meta1.width) s)) := by
    simp only [query, hguard, Bool.false_eq_true, if_false, hcs, hrd]
    rw [hopen]
    dsimp only
    rw [hcr]
    dsimp only
    unfold finishQuery
    rw [if_neg hfmt]
    dsimp only
    rw [hfl] at hsl ⊢
    dsimp only [List.isEmpty_cons]
    rw [hsl]
    rfl
  refine ⟨(meta1.height, meta1.width), s, fun hcon => hs hcon.symm, hres, ?_⟩
  intro out hout
  rw [hres] at hout
  simp at hout

/-- A one-band 2×1 dataset whose shape differs from `ds2`'s. -/
def ds3 : Dataset :=
  { driver := "GRIB", dtype := "float64", nodata := some 0,
    width := 1, height := 2, count := 1, crs := "native",
    transform := [0, 1, 0, 0, 0, 1],
    boundsLeft := 0, boundsBottom := 0, boundsRight := 1, boundsTop := 2,
    units := ["mm"], planes := [[[5], [6]]] }

/-- An environment resolving a range to two files of different shapes. -/
def c7Env : Env :=
  { sEnv with
      openFile := fun p =>
        if p = "base" then some ds2
        else if p = "g1" then some ds2
        else if p = "g2" then some ds3
        else none,
      resolveRange := fun dt => if dt = "a/b" then ["g1", "g2"] else [] }

/-- The native range query of the C7 witness. -/
def c7Q : QueryParams :=
  { properties := [1], subsets := [], bbox := [],
    datetime_ := some "a/b", format_ := "GTiff" }

/-- Witness for C7 at a concrete input: files of shapes (1,1) and
(2,1). -/
theorem c7_witness :
    ∃ s1 s2, s1 ≠ s2 ∧
      (query c7Env sSt c7Q).result = .error (.library (.shapeMismatch s1 s2)) ∧
      ∀ out, (query c7Env sSt c7Q).result ≠ .ok out := by
  have hfl : c7Env.resolveRange "a/b" = ["g1", "g2"] := rfl
  apply c7_shape_mismatch_fatal c7Env sSt c7Q "a/b" [] ds2 []
    { ds2.meta with extra := [] } [[[1]]]
    rfl (by decide) rfl (by decide) rfl rfl rfl rfl
  · intro f hf
    rw [hfl] at hf
    rcases List.mem_cons.mp hf with rfl | hf2
    · exact ⟨[[1]], rfl⟩
    · rcases List.mem_cons.mp hf2 with rfl | hf3
      · exact ⟨[[5], [6]], rfl⟩
      · exact absurd hf3 (List.not_mem_nil f)
  · refine ⟨"g1", ?_, "g2", ?_, [[1]], [[5], [6]], rfl, rfl, by decide⟩
    · rw [hfl]; simp
    · rw [hfl]; simp

/-! ## C10 -/

/-- C10: `query` mutates shared provider state: a single-datetime query
rebinds `self.data` to the matched file, and a range query overwrites
`self.file_list`; consequently a no-datetime query opens different
files depending on whether the single-datetime query ran before it —
request-order interference. -/
theorem c10_request_order_interference (env : Env) (st : ProviderState)
    (dt dtR per f : String) (rest : List String)
    (hne : dt ≠ "") (hnoslash : hasSlash dt = false)
    (hper : env.parsePeriod dt = some per)
    (hmatch : st.fileList.filter (fun v => pyIn per v) = f :: rest)
    (hdiff : f ≠ st.data)
    (hneR : dtR ≠ "") (hslashR : hasSlash dtR = true) :
    (query env st { datetime_ := some dt }).state.data = f ∧
    (query env ((query env st { datetime_ := some dt }).state)
      ({} : QueryParams)).trace.head? = some (.openFile f) ∧
    (query env st ({} : QueryParams)).trace.head? = some (.openFile st.data) ∧
    f ≠ st.data ∧
    (query env st { datetime_ := some dtR }).state.fileList =
      env.resolveRange dtR := by
  have hrd1 : resolveDatetime env st { datetime_ := some dt } =
      .ok ({ st with data := f }, [], []) := by
    simp [resolveDatetime, hne, hnoslash, hper, hmatch]
  obtain ⟨hd1, -, -⟩ := query_open_and_state env st { st with data := f }
    { datetime_ := some dt } [] [] [] rfl rfl hrd1
  have hd1f : (query env st { datetime_ := some dt }).state.data = f := hd1
  refine ⟨hd1f, ?_, ?_, hdiff, ?_⟩
  · obtain ⟨-, -, t, ht⟩ := query_open_and_state env
      ((query env st { datetime_ := some dt }).state)
      ((query env st { datetime_ := some dt }).state)
      ({} : QueryParams) [] [] [] rfl rfl rfl
    rw [ht, hd1f]
    simp
  · obtain ⟨-, -, t, ht⟩ := query_open_and_state env st st
      ({} : QueryParams) [] [] [] rfl rfl rfl
    rw [ht]
    simp
  · have hrdR : resolveDatetime env st { datetime_ := some dtR } =
        .ok ({ st with fileList := env.resolveRange dtR },
          env.resolveRange dtR, [Event.resolveCall dtR]) := by
      simp [resolveDatetime, hneR, hslashR]
    obtain ⟨-, hfl, -⟩ := query_open_and_state env st
      { st with fileList := env.resolveRange dtR }
      { datetime_ := some dtR } [] (env.resolveRange dtR)
      [Event.resolveCall dtR] rfl rfl hrdR
    exact hfl

/-- Witness for C10 at a concrete input: after a query for
`2023-06-02T00Z`, the current data path has moved off `base`, so a
subsequent no-datetime query opens a different file than it would have
before. -/
theorem c10_witness :
    (query sEnv sSt { datetime_ := some "2023-06-02T00Z" }).state.data =
      "dir/20230602T00Z_fA" ∧
    (query sEnv ((query sEnv sSt { datetime_ := some "2023-06-02T00Z" }).state)
      ({} : QueryParams)).trace.head? =
      some (.openFile "dir/20230602T00Z_fA") ∧
    (query sEnv sSt ({} : QueryParams)).trace.head? =
      some (.openFile "base") ∧
    "dir/20230602T00Z_fA" ≠ "base" ∧
    (query sEnv sSt
      { datetime_ := some "2023-06-01T00Z/2023-06-03T00Z" }).state.fileList =
      sEnv.resolveRange "2023-06-01T00Z/2023-06-03T00Z" :=
  c10_request_order_interference sEnv sSt "2023-06-02T00Z"
    "2023-06-01T00Z/2023-06-03T00Z" "20230602T00Z" "dir/20230602T00Z_fA" []
    (by decide) rfl rfl (by decide) (by decide) (by decide) rfl

end MscRdpa
